import Mathlib

/-!
Shallow embedding of the Cogworks bot status tracker
(src/routes: in-memory bot data store, health prober, status
reconciler/cache, and the authenticated ingestion endpoints).

Conventions of the embedding:
* Timestamps are `Int` milliseconds since the Unix epoch (JS `Date.getTime()`).
  ISO serialization of a timestamp is injective formatting, so view fields
  that the code serializes with `toISOString()` are kept as the underlying
  millisecond value; the epoch-zero sentinel `new Date(0)` is `0`.
* A JS field that may be `undefined`/`null` is an `Option`; JS string
  truthiness (`!s` is true for absent and for `""`) is `jsTruthyStr`.
* JS numbers are `Int` for counts and `ℚ` for the memory figure, on which
  the code performs division and `Math.round`.
* `axios.get` either yields a parsed 2xx body or throws (network error,
  timeout, or non-2xx status): `ProbeResult` has exactly those two cases.
-/

/-- Millisecond timestamp, as produced by `Date.now()`. -/
abbrev Timestamp := Int

/-- `OFFLINE_TIMEOUT = 600000` ms (10 minutes). -/
def OFFLINE_TIMEOUT : Int := 600000

/-- `CACHE_TTL = 30000` ms (30 seconds). -/
def CACHE_TTL : Int := 30000

/-- JS string truthiness: `undefined`, `null` and `""` are falsy. -/
def jsTruthyStr : Option String → Bool
  | none => false
  | some s => s ≠ ""

/-- `Math.round`: round half toward positive infinity. -/
def jsRound (q : ℚ) : Int := ⌊q + 1/2⌋

/-- The `healthStatus` sub-record of the store:
`{ready: boolean, alive: boolean, lastCheck: Date | null}`. -/
structure HealthStatus where
  ready : Bool
  alive : Bool
  lastCheck : Option Timestamp
deriving Repr, DecidableEq

/-- The in-memory `botData` store (`CogworksDataStore`). Fields assigned
from a payload can become `undefined`, hence the `Option` types. -/
structure CogworksDataStore where
  botId : Option String
  username : Option String
  guilds : Option Int
  users : Option Int
  uptime : Option Int
  memoryUsage : Option ℚ
  version : Option String
  environment : Option String
  lastUpdate : Option Timestamp
  healthStatus : HealthStatus
deriving Repr, DecidableEq

/-- The module-level initial value of `botData`. -/
def initialBotData : CogworksDataStore :=
  { botId := none
    username := none
    guilds := some 0
    users := some 0
    uptime := some 0
    memoryUsage := some 0
    version := none
    environment := none
    lastUpdate := none
    healthStatus := { ready := false, alive := false, lastCheck := none } }

/-- Body of a 2xx response from `/health/ready` or `/health/live`
(`BotHealthResponse`); the `ready`/`alive` fields may be absent,
which the code covers with `?? false`. -/
structure BotHealthResponse where
  ready : Option Bool
  alive : Option Bool
deriving Repr, DecidableEq

/-- Outcome of one `axios.get` health probe: a parsed 2xx body, or a
thrown error (network failure, timeout, or non-2xx status). -/
inductive ProbeResult where
  | ok (body : BotHealthResponse)
  | err
deriving Repr, DecidableEq

/-- `checkBotHealth`: the readiness probe is awaited first, then the
liveness probe; both awaits sit inside ONE try/catch, so if either
throws, the catch block records `{ready: false, alive: false,
lastCheck: new Date()}`. Only when both succeed are the two booleans
taken from the two bodies (defaulted with `?? false`). -/
def checkBotHealth (readyProbe liveProbe : ProbeResult) (now : Timestamp)
    (d : CogworksDataStore) : CogworksDataStore :=
  match readyProbe with
  | .err =>
      { d with healthStatus := { ready := false, alive := false, lastCheck := some now } }
  | .ok readyBody =>
      match liveProbe with
      | .err =>
          { d with healthStatus := { ready := false, alive := false, lastCheck := some now } }
      | .ok liveBody =>
          { d with healthStatus :=
              { ready := readyBody.ready.getD false
                alive := liveBody.alive.getD false
                lastCheck := some now } }

/-- `isBotOnline`: false when `lastUpdate` is null, else
`Date.now() - lastUpdate.getTime() < OFFLINE_TIMEOUT`. -/
def isBotOnline (now : Timestamp) (d : CogworksDataStore) : Bool :=
  match d.lastUpdate with
  | none => false
  | some t => now - t < OFFLINE_TIMEOUT

/-- JS `String.prototype.startsWith(p)`, on the character sequence. -/
def strStartsWith (s p : String) : Bool :=
  s.toList.take p.toList.length == p.toList

/-- JS `String.prototype.substring(n)`: drop the first `n` characters. -/
def strDrop (s : String) (n : Nat) : String := ⟨s.toList.drop n⟩

/-- `verifyBotToken`: requires an `Authorization` header starting with
`"Bearer "`, then compares `authHeader.substring(7)` with
`process.env.COGWORKS_BOT_TOKEN`. When that variable is unset the JS
comparison `token === undefined` is false for every string token. -/
def verifyBotToken (envToken : Option String) (authHeader : Option String) : Bool :=
  match authHeader with
  | none => false
  | some h =>
      if ¬ (strStartsWith h "Bearer ") then false
      else
        match envToken with
        | none => false
        | some t => strDrop h 7 == t

/-- The nested `healthStatus` object of the public status view, with
`lastCheck` ISO-serialized (epoch zero when null). -/
structure PublicHealthView where
  ready : Bool
  alive : Bool
  lastCheck : Timestamp
deriving Repr, DecidableEq

/-- The `CogworksPublicStatus` view built by the GET /status handler.
`memoryUsageMB` is `none` when the stored `memoryUsage` is undefined
(the JS expression would produce `NaN`). -/
structure CogworksPublicStatus where
  online : Bool
  ready : Bool
  guilds : Option Int
  users : Option Int
  uptime : Option Int
  memoryUsageMB : Option ℚ
  version : String
  lastUpdate : Timestamp
  healthStatus : PublicHealthView
deriving Repr, DecidableEq

/-- `Math.round(memoryUsage / 1024 / 1024 * 100) / 100`. -/
def memoryUsageMB (m : ℚ) : ℚ := (jsRound (m / 1024 / 1024 * 100) : ℚ) / 100

/-- `botData.version || 'unknown'` (null, undefined, and `""` are falsy). -/
def versionOrUnknown : Option String → String
  | none => "unknown"
  | some s => if s = "" then "unknown" else s

/-- The fresh status object built by the GET /status handler from the
current store (the Status Reconciler of the spec). -/
def buildStatus (now : Timestamp) (d : CogworksDataStore) : CogworksPublicStatus :=
  { online := isBotOnline now d
    ready := d.healthStatus.ready
    guilds := d.guilds
    users := d.users
    uptime := d.uptime
    memoryUsageMB := d.memoryUsage.map memoryUsageMB
    version := versionOrUnknown d.version
    lastUpdate := d.lastUpdate.getD 0
    healthStatus :=
      { ready := d.healthStatus.ready
        alive := d.healthStatus.alive
        lastCheck := d.healthStatus.lastCheck.getD 0 } }

/-- The module-level mutable state of the routes file: the `botData`
store plus the status cache (`cachedStatus`, `cacheTimestamp`). -/
structure ServerState where
  botData : CogworksDataStore
  cachedStatus : Option CogworksPublicStatus
  cacheTimestamp : Timestamp
deriving Repr, DecidableEq

/-- State at module load: initial store, no cache entry, `cacheTimestamp = 0`. -/
def initialServerState : ServerState :=
  { botData := initialBotData, cachedStatus := none, cacheTimestamp := 0 }

/-- HTTP status codes the embedded handlers can produce. -/
inductive HttpStatus where
  | ok200
  | badRequest400
  | unauthorized401
deriving Repr, DecidableEq

/-- Ingestion payload (`BotRegistrationPayload` / `BotStatsPayload`):
every field of the duck-typed JSON body may be absent. -/
structure BotPayload where
  botId : Option String
  username : Option String
  guilds : Option Int
  users : Option Int
  uptime : Option Int
  memoryUsage : Option ℚ
  version : Option String
  environment : Option String
deriving Repr, DecidableEq

/-- Validation in POST /register:
`!payload.botId || !payload.username || payload.guilds === undefined`. -/
def registerValid (p : BotPayload) : Bool :=
  jsTruthyStr p.botId && jsTruthyStr p.username && p.guilds.isSome

/-- Validation in PUT /stats: `!payload.botId || payload.guilds === undefined`
(note: no username check, unlike /register). -/
def statsValid (p : BotPayload) : Bool :=
  jsTruthyStr p.botId && p.guilds.isSome

/-- The common mutation of both /register and /stats: copy the eight
payload fields into the store and set `lastUpdate = new Date()`. -/
def applyPayload (p : BotPayload) (now : Timestamp) (d : CogworksDataStore) :
    CogworksDataStore :=
  { d with
    botId := p.botId
    username := p.username
    guilds := p.guilds
    users := p.users
    uptime := p.uptime
    memoryUsage := p.memoryUsage
    version := p.version
    environment := p.environment
    lastUpdate := some now }

/-- POST /register with the `requireBotAuth` middleware folded in:
auth check, validation, store overwrite, cache invalidation, then an
awaited immediate `checkBotHealth` (its probes resolve at `probeTime`). -/
def handleRegister (envToken authHeader : Option String) (p : BotPayload)
    (readyProbe liveProbe : ProbeResult) (now probeTime : Timestamp)
    (s : ServerState) : HttpStatus × ServerState :=
  if ¬ verifyBotToken envToken authHeader then (.unauthorized401, s)
  else if ¬ registerValid p then (.badRequest400, s)
  else
    let d := applyPayload p now s.botData
    (.ok200,
      { s with
        botData := checkBotHealth readyProbe liveProbe probeTime d
        cachedStatus := none })

/-- PUT /stats with the `requireBotAuth` middleware folded in:
auth check, validation, store overwrite, cache invalidation.
No health check is triggered here. -/
def handleStats (envToken authHeader : Option String) (p : BotPayload)
    (now : Timestamp) (s : ServerState) : HttpStatus × ServerState :=
  if ¬ verifyBotToken envToken authHeader then (.unauthorized401, s)
  else if ¬ statsValid p then (.badRequest400, s)
  else
    (.ok200,
      { s with botData := applyPayload p now s.botData, cachedStatus := none })

/-- POST /command-log: authenticated, logs only, mutates no state. -/
def handleCommandLog (envToken authHeader : Option String) (s : ServerState) :
    HttpStatus × ServerState :=
  if ¬ verifyBotToken envToken authHeader then (.unauthorized401, s)
  else (.ok200, s)

/-- POST /disconnect: sets `healthStatus.ready = false` and
`healthStatus.alive = false` (touching neither `lastCheck` nor any other
store field) and invalidates the cache; the call time is not consulted. -/
def handleDisconnect (envToken authHeader : Option String) (_now : Timestamp)
    (s : ServerState) : HttpStatus × ServerState :=
  if ¬ verifyBotToken envToken authHeader then (.unauthorized401, s)
  else
    (.ok200,
      { s with
        botData :=
          { s.botData with
            healthStatus :=
              { s.botData.healthStatus with ready := false, alive := false } }
        cachedStatus := none })

/-- GET /status: serve the cached view while `now - cacheTimestamp <
CACHE_TTL`; otherwise build a fresh view, cache it, and serve it. -/
def getStatusServer (now : Timestamp) (s : ServerState) :
    CogworksPublicStatus × ServerState :=
  match s.cachedStatus with
  | some c =>
      if now - s.cacheTimestamp < CACHE_TTL then (c, s)
      else
        let st := buildStatus now s.botData
        (st, { s with cachedStatus := some st, cacheTimestamp := now })
  | none =>
      let st := buildStatus now s.botData
      (st, { s with cachedStatus := some st, cacheTimestamp := now })

/-- The timer-driven `checkBotHealth` at server level: it mutates only
`botData.healthStatus` and never touches the status cache. -/
def checkBotHealthServer (readyProbe liveProbe : ProbeResult) (now : Timestamp)
    (s : ServerState) : ServerState :=
  { s with botData := checkBotHealth readyProbe liveProbe now s.botData }

/-- One authenticated ingestion event sent by the monitored process.
A register event carries the outcome of the immediate health check
the /register handler awaits. -/
inductive BotEvent where
  | register (p : BotPayload) (readyProbe liveProbe : ProbeResult)
  | statsUpdate (p : BotPayload)
  | disconnect
deriving Repr, DecidableEq

/-- The event passes the handler validation. -/
def eventValid : BotEvent → Bool
  | .register p _ _ => registerValid p
  | .statsUpdate p => statsValid p
  | .disconnect => true

/-- Run the handler of one event at time `t`. -/
def stepEvent (envToken authHeader : Option String) (t : Timestamp)
    (e : BotEvent) (s : ServerState) : ServerState :=
  match e with
  | .register p rp lp => (handleRegister envToken authHeader p rp lp t t s).2
  | .statsUpdate p => (handleStats envToken authHeader p t s).2
  | .disconnect => (handleDisconnect envToken authHeader t s).2

/-- Run a timed sequence of ingestion events. -/
def runTrace (envToken authHeader : Option String)
    (trace : List (Timestamp × BotEvent)) (s : ServerState) : ServerState :=
  trace.foldl (fun s te => stepEvent envToken authHeader te.1 te.2 s) s

/-- The times of the registration and stats-update events of a trace. -/
def updateTimes (trace : List (Timestamp × BotEvent)) : List Timestamp :=
  trace.filterMap fun te =>
    match te.2 with
    | .disconnect => none
    | _ => some te.1

/-- The time of the last registration/stats-update event, starting from
an accumulator (the value of `lastUpdate` before the trace). -/
def lastReportFrom (acc : Option Timestamp)
    (trace : List (Timestamp × BotEvent)) : Option Timestamp :=
  trace.foldl
    (fun acc te =>
      match te.2 with
      | .disconnect => acc
      | _ => some te.1)
    acc

/-- Concrete fixtures used by witnesses and counterexamples. -/
def envTok : Option String := some "cogworks-secret"

/-- The matching `Authorization` header for `envTok`. -/
def authHdr : Option String := some "Bearer cogworks-secret"

/-- A fully populated, valid ingestion payload. -/
def samplePayload : BotPayload :=
  { botId := some "bot-1"
    username := some "Cogworks"
    guilds := some 5
    users := some 10
    uptime := some 3600
    memoryUsage := some 52428800
    version := some "1.0.0"
    environment := some "production" }

/-- A 2xx health-probe response reporting both booleans true. -/
def probeOkTrue : ProbeResult := .ok { ready := some true, alive := some true }

/-- Rounding to 2 decimal places as the spec words it (half rounds up,
matching `Math.round`); used to compare the code's `memoryUsageMB`
expression against the spec's description. -/
def roundedTo2Decimals (v : ℚ) : ℚ := (⌊v * 100 + 1/2⌋ : ℚ) / 100

/-! ### Helper lemmas -/

theorem checkBotHealth_lastUpdate (rp lp : ProbeResult) (t : Timestamp)
    (d : CogworksDataStore) :
    (checkBotHealth rp lp t d).lastUpdate = d.lastUpdate := by
  cases rp with
  | err => rfl
  | ok rb => cases lp <;> rfl

theorem stepEvent_cachedStatus (E A : Option String) (t : Timestamp)
    (e : BotEvent) (s : ServerState) (hauth : verifyBotToken E A = true)
    (hv : eventValid e = true) :
    (stepEvent E A t e s).cachedStatus = none := by
  cases e with
  | register p rp lp =>
      simp only [eventValid] at hv
      simp [stepEvent, handleRegister, hauth, hv]
  | statsUpdate p =>
      simp only [eventValid] at hv
      simp [stepEvent, handleStats, hauth, hv]
  | disconnect =>
      simp [stepEvent, handleDisconnect, hauth]

theorem stepEvent_register_lastUpdate (E A : Option String) (t : Timestamp)
    (p : BotPayload) (rp lp : ProbeResult) (s : ServerState)
    (hauth : verifyBotToken E A = true) (hv : registerValid p = true) :
    (stepEvent E A t (.register p rp lp) s).botData.lastUpdate = some t := by
  simp [stepEvent, handleRegister, hauth, hv, checkBotHealth_lastUpdate,
    applyPayload]

theorem stepEvent_stats_lastUpdate (E A : Option String) (t : Timestamp)
    (p : BotPayload) (s : ServerState)
    (hauth : verifyBotToken E A = true) (hv : statsValid p = true) :
    (stepEvent E A t (.statsUpdate p) s).botData.lastUpdate = some t := by
  simp [stepEvent, handleStats, hauth, hv, applyPayload]

theorem stepEvent_disconnect_lastUpdate (E A : Option String) (t : Timestamp)
    (s : ServerState) (hauth : verifyBotToken E A = true) :
    (stepEvent E A t .disconnect s).botData.lastUpdate =
      s.botData.lastUpdate := by
  simp [stepEvent, handleDisconnect, hauth]

theorem updateTimes_cons_register (t : Timestamp) (p : BotPayload)
    (rp lp : ProbeResult) (rest : List (Timestamp × BotEvent)) :
    updateTimes ((t, BotEvent.register p rp lp) :: rest) =
      t :: updateTimes rest := rfl

theorem updateTimes_cons_stats (t : Timestamp) (p : BotPayload)
    (rest : List (Timestamp × BotEvent)) :
    updateTimes ((t, BotEvent.statsUpdate p) :: rest) =
      t :: updateTimes rest := rfl

theorem updateTimes_cons_disconnect (t : Timestamp)
    (rest : List (Timestamp × BotEvent)) :
    updateTimes ((t, BotEvent.disconnect) :: rest) = updateTimes rest := rfl

theorem runTrace_cachedStatus (E A : Option String)
    (hauth : verifyBotToken E A = true) :
    ∀ (trace : List (Timestamp × BotEvent)) (s : ServerState),
      (∀ te ∈ trace, eventValid te.2 = true) → trace ≠ [] →
      (runTrace E A trace s).cachedStatus = none := by
  intro trace
  induction trace with
  | nil => intro s _ hne; cases hne rfl
  | cons te rest ih =>
      intro s hv _
      by_cases hr : rest = []
      · subst hr
        simpa [runTrace] using
          stepEvent_cachedStatus E A te.1 te.2 s hauth (hv te (by simp))
      · have hstep : runTrace E A (te :: rest) s =
            runTrace E A rest (stepEvent E A te.1 te.2 s) := rfl
        rw [hstep]
        exact ih _ (fun x hx => hv x (List.mem_cons_of_mem te hx)) hr

theorem runTrace_lastUpdate (E A : Option String)
    (hauth : verifyBotToken E A = true) :
    ∀ (trace : List (Timestamp × BotEvent)) (s : ServerState),
      (∀ te ∈ trace, eventValid te.2 = true) →
      (runTrace E A trace s).botData.lastUpdate =
        lastReportFrom s.botData.lastUpdate trace := by
  intro trace
  induction trace with
  | nil => intro s _; rfl
  | cons te rest ih =>
      intro s hv
      obtain ⟨t, e⟩ := te
      have hrest : ∀ x ∈ rest, eventValid x.2 = true :=
        fun x hx => hv x (List.mem_cons_of_mem _ hx)
      have hhead := hv (t, e) (by simp)
      cases e with
      | register p rp lp =>
          have hstep : runTrace E A ((t, BotEvent.register p rp lp) :: rest) s =
              runTrace E A rest (stepEvent E A t (.register p rp lp) s) := rfl
          simp only [eventValid] at hhead
          rw [hstep, ih _ hrest,
            stepEvent_register_lastUpdate E A t p rp lp s hauth hhead]
          rfl
      | statsUpdate p =>
          have hstep : runTrace E A ((t, BotEvent.statsUpdate p) :: rest) s =
              runTrace E A rest (stepEvent E A t (.statsUpdate p) s) := rfl
          simp only [eventValid] at hhead
          rw [hstep, ih _ hrest,
            stepEvent_stats_lastUpdate E A t p s hauth hhead]
          rfl
      | disconnect =>
          have hstep : runTrace E A ((t, BotEvent.disconnect) :: rest) s =
              runTrace E A rest (stepEvent E A t .disconnect s) := rfl
          rw [hstep, ih _ hrest,
            stepEvent_disconnect_lastUpdate E A t s hauth]
          rfl

theorem updateTimes_subset_times (trace : List (Timestamp × BotEvent))
    (x : Timestamp) (hx : x ∈ updateTimes trace) :
    x ∈ trace.map Prod.fst := by
  simp only [updateTimes, List.mem_filterMap] at hx
  obtain ⟨te, hmem, heq⟩ := hx
  cases hte : te.2 <;> rw [hte] at heq
  · cases heq
    exact List.mem_map_of_mem Prod.fst hmem
  · cases heq
    exact List.mem_map_of_mem Prod.fst hmem
  · cases heq

theorem lastReportFrom_mem :
    ∀ (trace : List (Timestamp × BotEvent)) (acc : Option Timestamp)
      (m : Timestamp), lastReportFrom acc trace = some m →
      m ∈ updateTimes trace ∨ acc = some m := by
  intro trace
  induction trace with
  | nil => intro acc m h; exact Or.inr h
  | cons te rest ih =>
      intro acc m h
      obtain ⟨t, e⟩ := te
      cases e with
      | register p rp lp =>
          rw [updateTimes_cons_register]
          rcases ih (some t) m h with hm | hm
          · exact Or.inl (List.mem_cons_of_mem _ hm)
          · cases Option.some.inj hm
            exact Or.inl (List.mem_cons_self _ _)
      | statsUpdate p =>
          rw [updateTimes_cons_stats]
          rcases ih (some t) m h with hm | hm
          · exact Or.inl (List.mem_cons_of_mem _ hm)
          · cases Option.some.inj hm
            exact Or.inl (List.mem_cons_self _ _)
      | disconnect =>
          rw [updateTimes_cons_disconnect]
          rcases ih acc m h with hm | hm
          · exact Or.inl hm
          · exact Or.inr hm

theorem lastReportFrom_isMax :
    ∀ (trace : List (Timestamp × BotEvent)) (acc : Option Timestamp)
      (m : Timestamp), List.Pairwise (· < ·) (trace.map Prod.fst) →
      lastReportFrom acc trace = some m →
      ∀ x ∈ updateTimes trace, x ≤ m := by
  intro trace
  induction trace with
  | nil => intro acc m _ _ x hx; simp [updateTimes] at hx
  | cons te rest ih =>
      intro acc m hpw h x hx
      obtain ⟨t, e⟩ := te
      rw [List.map_cons, List.pairwise_cons] at hpw
      cases e with
      | register p rp lp =>
          rw [updateTimes_cons_register] at hx
          have ht : t ≤ m := by
            rcases lastReportFrom_mem rest (some t) m h with hm | hm
            · exact le_of_lt (hpw.1 m (updateTimes_subset_times rest m hm))
            · exact le_of_eq (Option.some.inj hm)
          rcases List.mem_cons.1 hx with hx | hx
          · exact hx ▸ ht
          · exact ih (some t) m hpw.2 h x hx
      | statsUpdate p =>
          rw [updateTimes_cons_stats] at hx
          have ht : t ≤ m := by
            rcases lastReportFrom_mem rest (some t) m h with hm | hm
            · exact le_of_lt (hpw.1 m (updateTimes_subset_times rest m hm))
            · exact le_of_eq (Option.some.inj hm)
          rcases List.mem_cons.1 hx with hx | hx
          · exact hx ▸ ht
          · exact ih (some t) m hpw.2 h x hx
      | disconnect =>
          rw [updateTimes_cons_disconnect] at hx
          exact ih acc m hpw.2 h x hx

/-! ### Claim C1: probe outcome recording -/

/-- C1 counterexample: when the readiness probe throws while the liveness
probe would succeed with alive = true, the single try/catch of
`checkBotHealth` records alive = false as well, not the
ready = false, alive = true record the claim predicts. -/
theorem checkBotHealth_not_independent_cex :
    (checkBotHealth ProbeResult.err probeOkTrue 7 initialBotData).healthStatus ≠
      { ready := false, alive := true, lastCheck := some 7 } := by
  decide

/-- C1 (amended): the two probes are not recorded independently: if either
probe fails (network error, non-2xx, or timeout), `checkBotHealth`
records both ready = false and alive = false, with the check timestamp. -/
theorem checkBotHealth_failure_forces_both_false
    (rp lp : ProbeResult) (now : Timestamp) (d : CogworksDataStore)
    (h : rp = ProbeResult.err ∨ lp = ProbeResult.err) :
    (checkBotHealth rp lp now d).healthStatus =
      { ready := false, alive := false, lastCheck := some now } := by
  rcases h with h | h
  · subst h; rfl
  · subst h; cases rp <;> rfl

/-- C1 witness: a failed readiness probe next to a successful liveness
probe records both booleans false. -/
theorem checkBotHealth_failure_forces_both_false_w :
    (checkBotHealth ProbeResult.err probeOkTrue 7 initialBotData).healthStatus =
      { ready := false, alive := false, lastCheck := some 7 } :=
  checkBotHealth_failure_forces_both_false ProbeResult.err probeOkTrue 7
    initialBotData (Or.inl rfl)

/-! ### Claim C3: cache invalidation -/

/-- C3 counterexample: the health prober's `checkBotHealth` does NOT
invalidate the status cache: after a read has populated the cache, a
health check that flips `ready` to true leaves the cache entry present,
and the very next read (within TTL) serves the stale pre-mutation view
with ready = false. -/
theorem recordHealth_preserves_cache_cex :
    ((checkBotHealthServer probeOkTrue probeOkTrue 10
        (getStatusServer 0 initialServerState).2).cachedStatus ≠ none) ∧
    (getStatusServer 20 (checkBotHealthServer probeOkTrue probeOkTrue 10
        (getStatusServer 0 initialServerState).2)).1.ready = false ∧
    (checkBotHealthServer probeOkTrue probeOkTrue 10
        (getStatusServer 0 initialServerState).2).botData.healthStatus.ready
      = true := by
  refine ⟨?_, by decide, by decide⟩
  intro h
  exact Option.noConfusion h

/-- C3 (amended): the register, stats, and disconnect handlers each leave
the cache entry absent, so the next read recomputes; `checkBotHealth`
leaves the cache exactly as it was. -/
theorem cache_invalidation_on_mutations (E A : Option String) (p : BotPayload)
    (rp lp : ProbeResult) (t tp : Timestamp) (s : ServerState)
    (hauth : verifyBotToken E A = true)
    (hreg : registerValid p = true) (hst : statsValid p = true) :
    (handleRegister E A p rp lp t tp s).2.cachedStatus = none ∧
    (handleStats E A p t s).2.cachedStatus = none ∧
    (handleDisconnect E A t s).2.cachedStatus = none ∧
    (checkBotHealthServer rp lp t s).cachedStatus = s.cachedStatus := by
  refine ⟨?_, ?_, ?_, rfl⟩ <;>
    simp [handleRegister, handleStats, handleDisconnect, hauth, hreg, hst]

/-- C3 witness: cache invalidation of the three mutating endpoints at a
concrete authenticated call. -/
theorem cache_invalidation_on_mutations_w :
    (handleRegister envTok authHdr samplePayload probeOkTrue probeOkTrue 1 2
        initialServerState).2.cachedStatus = none ∧
    (handleStats envTok authHdr samplePayload 1
        initialServerState).2.cachedStatus = none ∧
    (handleDisconnect envTok authHdr 1 initialServerState).2.cachedStatus
      = none ∧
    (checkBotHealthServer probeOkTrue probeOkTrue 1
        initialServerState).cachedStatus = initialServerState.cachedStatus :=
  cache_invalidation_on_mutations envTok authHdr samplePayload probeOkTrue
    probeOkTrue 1 2 initialServerState (by decide) (by decide) (by decide)

/-! ### Claim C4: disconnect effect and frame -/

/-- C4 counterexample: disconnect does not stamp `lastCheck`: with a
prober reading recorded at time 5, a disconnect at time 100 leaves
`lastCheck = some 5`, so the health record is not
the claimed ready-false/alive-false/lastCheckedAt-now record. -/
theorem disconnect_lastCheck_unchanged_cex :
    (handleDisconnect envTok authHdr 100
        (checkBotHealthServer ProbeResult.err ProbeResult.err 5
          initialServerState)).2.botData.healthStatus ≠
      { ready := false, alive := false, lastCheck := some 100 } := by
  decide

/-- C4 (amended): an authenticated disconnect sets
`healthStatus.ready = false` and `healthStatus.alive = false`, leaves
`lastCheck` untouched, changes no other field of the bot record
(identity, metrics, `lastUpdate`), and clears the status cache. -/
theorem handleDisconnect_effect_frame (E A : Option String) (now : Timestamp)
    (s : ServerState) (hauth : verifyBotToken E A = true) :
    handleDisconnect E A now s =
      (HttpStatus.ok200,
        { s with
          botData :=
            { s.botData with
              healthStatus :=
                { s.botData.healthStatus with ready := false, alive := false } }
          cachedStatus := none }) := by
  simp [handleDisconnect, hauth]

/-- C4 witness: the disconnect effect at a concrete state. -/
theorem handleDisconnect_effect_frame_w :
    handleDisconnect envTok authHdr 100 initialServerState =
      (HttpStatus.ok200,
        { botData :=
            { initialBotData with
              healthStatus :=
                { ready := false, alive := false, lastCheck := none } }
          cachedStatus := none
          cacheTimestamp := 0 }) :=
  handleDisconnect_effect_frame envTok authHdr 100 initialServerState (by decide)

/-! ### Claim C7: cold-start view -/

/-- C7: on the initial state, before any registration or stats update,
GET /status is total and returns the fully populated view: online false,
counters 0, memoryUsageMB 0, version "unknown", and the epoch-zero
timestamp (0 ms) for `lastUpdate` and the nested `lastCheck`. -/
theorem coldStart_view_total (t : Timestamp) :
    (getStatusServer t initialServerState).1 =
      { online := false, ready := false, guilds := some 0, users := some 0,
        uptime := some 0, memoryUsageMB := some 0, version := "unknown",
        lastUpdate := 0,
        healthStatus := { ready := false, alive := false, lastCheck := 0 } } := by
  have hmb : memoryUsageMB 0 = 0 := by norm_num [memoryUsageMB, jsRound]
  simp [getStatusServer, initialServerState, buildStatus, initialBotData,
    isBotOnline, versionOrUnknown, hmb]

/-! ### Claim C8: unit conversion -/

/-- C8: the view's memory figure is the stored byte count divided by
1024*1024 and rounded to 2 decimal places, and 52428800 bytes map to
within 0.01 of 50.0 (in fact exactly 50). -/
theorem memoryUsageMB_spec_round :
    (∀ m : ℚ, memoryUsageMB m = roundedTo2Decimals (m / (1024 * 1024))) ∧
    |memoryUsageMB 52428800 - 50| ≤ 1 / 100 := by
  constructor
  · intro m
    have harg : m / 1024 / 1024 * 100 = m / (1024 * 1024) * 100 := by ring
    simp only [memoryUsageMB, roundedTo2Decimals, jsRound]
    rw [harg]
  · have h : memoryUsageMB 52428800 = 50 := by norm_num [memoryUsageMB, jsRound]
    rw [h]
    norm_num

/-! ### Claim C5: register / stats comparison -/

/-- C5 counterexample: from the same starting state and the same valid
payload, register and stats do NOT produce identical final states:
register additionally awaits an immediate health check, which here
(both probes succeeding with true) flips `healthStatus.ready` to true,
while the stats handler leaves the health record untouched. -/
theorem register_stats_not_identical_cex :
    (handleRegister envTok authHdr samplePayload probeOkTrue probeOkTrue
        100 100 initialServerState).2 ≠
      (handleStats envTok authHdr samplePayload 100 initialServerState).2 := by
  intro h
  have h2 : (handleRegister envTok authHdr samplePayload probeOkTrue probeOkTrue
        100 100 initialServerState).2.botData.healthStatus.ready =
      (handleStats envTok authHdr samplePayload 100
        initialServerState).2.botData.healthStatus.ready := by rw [h]
  have hL : (handleRegister envTok authHdr samplePayload probeOkTrue probeOkTrue
      100 100 initialServerState).2.botData.healthStatus.ready = true := by decide
  have hR : (handleStats envTok authHdr samplePayload 100
      initialServerState).2.botData.healthStatus.ready = false := by decide
  rw [hL, hR] at h2
  exact Bool.noConfusion h2

/-- C5 (amended): for every payload valid for registration and every
starting state, the two handlers accept the payload (no payload is
rejected for being older than the current state: the starting state is
arbitrary), overwrite identity and metrics identically and set
`lastUpdate = now`; the only difference is that register additionally
runs an immediate health check, which overwrites `healthStatus`. -/
theorem register_stats_equiv_up_to_health (E A : Option String)
    (p : BotPayload) (rp lp : ProbeResult) (now tp : Timestamp)
    (s : ServerState) (hauth : verifyBotToken E A = true)
    (hreg : registerValid p = true) :
    (handleStats E A p now s).1 = HttpStatus.ok200 ∧
    handleRegister E A p rp lp now tp s =
      (HttpStatus.ok200,
        { (handleStats E A p now s).2 with
          botData := checkBotHealth rp lp tp
            ((handleStats E A p now s).2.botData) }) := by
  have hst : statsValid p = true := by
    simp only [registerValid, Bool.and_eq_true] at hreg
    simp only [statsValid, Bool.and_eq_true]
    exact ⟨hreg.1.1, hreg.2⟩
  constructor
  · simp [handleStats, hauth, hst]
  · simp [handleRegister, handleStats, hauth, hreg, hst]

/-- C5 witness: the relation between register and stats at a concrete
valid payload and starting state. -/
theorem register_stats_equiv_up_to_health_w :
    (handleStats envTok authHdr samplePayload 100 initialServerState).1
      = HttpStatus.ok200 ∧
    handleRegister envTok authHdr samplePayload probeOkTrue probeOkTrue
        100 200 initialServerState =
      (HttpStatus.ok200,
        { (handleStats envTok authHdr samplePayload 100 initialServerState).2 with
          botData := checkBotHealth probeOkTrue probeOkTrue 200
            ((handleStats envTok authHdr samplePayload 100
              initialServerState).2.botData) }) :=
  register_stats_equiv_up_to_health envTok authHdr samplePayload probeOkTrue
    probeOkTrue 100 200 initialServerState (by decide) (by decide)

/-! ### Claim C6: validation rejection with atomicity -/

/-- C6 counterexample: a stats payload missing `username` (but carrying
botId and guilds) is NOT rejected: the handler answers 200 and mutates
the record (`lastUpdate` becomes the call time), contradicting the
claim that both endpoints reject a payload missing username. -/
theorem stats_missing_username_accepted_cex :
    (handleStats envTok authHdr
        { botId := some "bot-1", username := none, guilds := some 5,
          users := none, uptime := none, memoryUsage := none,
          version := none, environment := none } 50 initialServerState).1
      = HttpStatus.ok200 ∧
    (handleStats envTok authHdr
        { botId := some "bot-1", username := none, guilds := some 5,
          users := none, uptime := none, memoryUsage := none,
          version := none, environment := none } 50
        initialServerState).2.botData.lastUpdate = some 50 ∧
    initialServerState.botData.lastUpdate = none := by
  refine ⟨by decide, by decide, rfl⟩

/-- C6 (amended): register rejects a payload missing botId, username, or
guilds with 400, and stats rejects one missing botId or guilds with 400,
each leaving the whole server state (record and cache) unchanged; but a
stats payload missing only username is accepted and applied. -/
theorem validation_rejection_atomic (E A : Option String) (p : BotPayload)
    (rp lp : ProbeResult) (t tp : Timestamp) (s : ServerState)
    (hauth : verifyBotToken E A = true) :
    (p.botId = none ∨ p.username = none ∨ p.guilds = none →
      handleRegister E A p rp lp t tp s = (HttpStatus.badRequest400, s)) ∧
    (p.botId = none ∨ p.guilds = none →
      handleStats E A p t s = (HttpStatus.badRequest400, s)) ∧
    (jsTruthyStr p.botId = true → p.guilds.isSome = true → p.username = none →
      handleStats E A p t s =
        (HttpStatus.ok200,
          { s with
            botData := applyPayload p t s.botData
            cachedStatus := none })) := by
  refine ⟨?_, ?_, ?_⟩
  · intro h
    have hrv : registerValid p = false := by
      rcases h with h | h | h <;> simp [registerValid, jsTruthyStr, h]
    simp [handleRegister, hauth, hrv]
  · intro h
    have hsv : statsValid p = false := by
      rcases h with h | h <;> simp [statsValid, jsTruthyStr, h]
    simp [handleStats, hauth, hsv]
  · intro hb hg _
    have hsv : statsValid p = true := by
      simp [statsValid, hb, hg]
    simp [handleStats, hauth, hsv]

/-- C6 witness: concrete rejections (register missing botId, stats
missing guilds) leaving the state untouched, and a concrete acceptance
of a stats payload missing only username. -/
theorem validation_rejection_atomic_w :
    handleRegister envTok authHdr
        { botId := none, username := some "Cogworks", guilds := some 5,
          users := none, uptime := none, memoryUsage := none,
          version := none, environment := none }
        ProbeResult.err ProbeResult.err 3 4 initialServerState
      = (HttpStatus.badRequest400, initialServerState) ∧
    handleStats envTok authHdr
        { botId := some "bot-1", username := some "Cogworks", guilds := none,
          users := none, uptime := none, memoryUsage := none,
          version := none, environment := none } 3 initialServerState
      = (HttpStatus.badRequest400, initialServerState) ∧
    handleStats envTok authHdr
        { botId := some "bot-1", username := none, guilds := some 5,
          users := none, uptime := none, memoryUsage := none,
          version := none, environment := none } 3 initialServerState
      = (HttpStatus.ok200,
          { initialServerState with
            botData := applyPayload
              { botId := some "bot-1", username := none, guilds := some 5,
                users := none, uptime := none, memoryUsage := none,
                version := none, environment := none } 3
              initialServerState.botData
            cachedStatus := none }) :=
  ⟨(validation_rejection_atomic envTok authHdr _ ProbeResult.err ProbeResult.err
      3 4 initialServerState (by decide)).1 (Or.inl rfl),
   (validation_rejection_atomic envTok authHdr _ ProbeResult.err ProbeResult.err
      3 4 initialServerState (by decide)).2.1 (Or.inr rfl),
   (validation_rejection_atomic envTok authHdr _ ProbeResult.err ProbeResult.err
      3 4 initialServerState (by decide)).2.2 (by decide) (by decide) rfl⟩

/-! ### Claim C9: closed-by-default authentication -/

/-- C9: if the COGWORKS_BOT_TOKEN variable is unset, or the Authorization
header is absent or does not start with "Bearer ", the token check
fails and every authenticated ingestion endpoint (register, stats,
command-log, disconnect) answers 401 with the server state (bot record
and cache) unchanged. -/
theorem closed_by_default_auth (E A : Option String) (p : BotPayload)
    (rp lp : ProbeResult) (t tp : Timestamp) (s : ServerState)
    (h : E = none ∨ A = none ∨
      ∀ hd, A = some hd → strStartsWith hd "Bearer " = false) :
    verifyBotToken E A = false ∧
    handleRegister E A p rp lp t tp s = (HttpStatus.unauthorized401, s) ∧
    handleStats E A p t s = (HttpStatus.unauthorized401, s) ∧
    handleCommandLog E A s = (HttpStatus.unauthorized401, s) ∧
    handleDisconnect E A t s = (HttpStatus.unauthorized401, s) := by
  have hv : verifyBotToken E A = false := by
    rcases h with h | h | h
    · subst h
      cases A with
      | none => rfl
      | some hd =>
          simp only [verifyBotToken]
          split
          · rfl
          · rfl
    · subst h; rfl
    · cases A with
      | none => rfl
      | some hd =>
          have hh := h hd rfl
          simp [verifyBotToken, hh]
  exact ⟨hv,
    by simp [handleRegister, hv],
    by simp [handleStats, hv],
    by simp [handleCommandLog, hv],
    by simp [handleDisconnect, hv]⟩

/-- C9 witness: with the environment variable unset, even the well-formed
bearer header is refused on all four endpoints. -/
theorem closed_by_default_auth_w :
    verifyBotToken none authHdr = false ∧
    handleRegister none authHdr samplePayload ProbeResult.err ProbeResult.err
        1 2 initialServerState = (HttpStatus.unauthorized401, initialServerState) ∧
    handleStats none authHdr samplePayload 1 initialServerState
      = (HttpStatus.unauthorized401, initialServerState) ∧
    handleCommandLog none authHdr initialServerState
      = (HttpStatus.unauthorized401, initialServerState) ∧
    handleDisconnect none authHdr 1 initialServerState
      = (HttpStatus.unauthorized401, initialServerState) :=
  closed_by_default_auth none authHdr samplePayload ProbeResult.err
    ProbeResult.err 1 2 initialServerState (Or.inl rfl)

/-! ### Claim C10: validation asymmetry at zero and empty values -/

/-- C10: a register payload with guilds = 0 and non-empty botId and
username passes validation and is fully applied (guilds is compared
only against undefined), while any payload whose botId or username is
the empty string fails the truthiness check and is rejected with the
state unchanged. -/
theorem register_validation_asymmetry (E A : Option String) (p : BotPayload)
    (b u : String) (rp lp : ProbeResult) (now tp : Timestamp)
    (s : ServerState) (hauth : verifyBotToken E A = true)
    (hb : p.botId = some b) (hbne : b ≠ "")
    (hu : p.username = some u) (hune : u ≠ "")
    (hg : p.guilds = some 0) :
    (registerValid p = true ∧
      handleRegister E A p rp lp now tp s =
        (HttpStatus.ok200,
          { s with
            botData := checkBotHealth rp lp tp (applyPayload p now s.botData)
            cachedStatus := none })) ∧
    (∀ q : BotPayload, q.botId = some "" ∨ q.username = some "" →
      registerValid q = false ∧
      handleRegister E A q rp lp now tp s = (HttpStatus.badRequest400, s)) := by
  have hrv : registerValid p = true := by
    simp [registerValid, jsTruthyStr, hb, hu, hg, hbne, hune]
  refine ⟨⟨hrv, by simp [handleRegister, hauth, hrv]⟩, ?_⟩
  intro q hq
  have h0 : jsTruthyStr (some "") = false := by decide
  have hqv : registerValid q = false := by
    rcases hq with hq | hq <;> simp [registerValid, hq, h0]
  exact ⟨hqv, by simp [handleRegister, hauth, hqv]⟩

/-- C10 witness: guilds = 0 is accepted and applied; the same payload
with an empty botId is rejected unchanged. -/
theorem register_validation_asymmetry_w :
    (registerValid { samplePayload with guilds := some 0 } = true ∧
      handleRegister envTok authHdr { samplePayload with guilds := some 0 }
          ProbeResult.err ProbeResult.err 9 10 initialServerState =
        (HttpStatus.ok200,
          { initialServerState with
            botData := checkBotHealth ProbeResult.err ProbeResult.err 10
              (applyPayload { samplePayload with guilds := some 0 } 9
                initialServerState.botData)
            cachedStatus := none })) ∧
    (registerValid { samplePayload with botId := some "" } = false ∧
      handleRegister envTok authHdr { samplePayload with botId := some "" }
          ProbeResult.err ProbeResult.err 9 10 initialServerState
        = (HttpStatus.badRequest400, initialServerState)) :=
  ⟨(register_validation_asymmetry envTok authHdr _ "bot-1" "Cogworks"
      ProbeResult.err ProbeResult.err 9 10 initialServerState (by decide)
      rfl (by decide) rfl (by decide) rfl).1,
   (register_validation_asymmetry envTok authHdr
      { samplePayload with guilds := some 0 } "bot-1" "Cogworks"
      ProbeResult.err ProbeResult.err 9 10 initialServerState (by decide)
      rfl (by decide) rfl (by decide) rfl).2
     { samplePayload with botId := some "" } (Or.inl rfl)⟩

/-! ### Claim C2: monotonic online window -/

/-- C2: for every authenticated trace of valid registration / stats
events at strictly increasing times, with disconnect calls interleaved
anywhere, a GET /status read at time t reports online exactly when
`t - m < OFFLINE_TIMEOUT`, where m is the time of the last report
event and an upper bound of all report times (their maximum);
disconnects never influence the online boolean. -/
theorem online_window_monotonic (E A : Option String)
    (trace : List (Timestamp × BotEvent)) (t m : Timestamp)
    (hauth : verifyBotToken E A = true)
    (hvalid : ∀ te ∈ trace, eventValid te.2 = true)
    (hsorted : List.Pairwise (· < ·) (trace.map Prod.fst))
    (hlast : lastReportFrom none trace = some m) :
    (∀ x ∈ updateTimes trace, x ≤ m) ∧
    ((getStatusServer t (runTrace E A trace initialServerState)).1.online
      = decide (t - m < OFFLINE_TIMEOUT)) := by
  refine ⟨lastReportFrom_isMax trace none m hsorted hlast, ?_⟩
  have hne : trace ≠ [] := by
    intro hnil
    rw [hnil] at hlast
    exact Option.noConfusion hlast
  have hcache := runTrace_cachedStatus E A hauth trace initialServerState
    hvalid hne
  have hlu : (runTrace E A trace initialServerState).botData.lastUpdate
      = some m := by
    rw [runTrace_lastUpdate E A hauth trace initialServerState hvalid]
    exact hlast
  simp [getStatusServer, hcache, buildStatus, isBotOnline, hlu]

/-- C2 witness: register at time 0, disconnect at time 10, read at time
20: the view still reports online (20 ms being far below the 600000 ms
window), the interleaved disconnect notwithstanding. -/
theorem online_window_monotonic_w :
    (getStatusServer 20 (runTrace envTok authHdr
        [(0, BotEvent.register samplePayload probeOkTrue probeOkTrue),
         (10, BotEvent.disconnect)] initialServerState)).1.online = true := by
  have H := online_window_monotonic envTok authHdr
    [(0, BotEvent.register samplePayload probeOkTrue probeOkTrue),
     (10, BotEvent.disconnect)] 20 0 (by decide) (by decide) (by decide)
    (by decide)
  rw [H.2]
  decide
